import Mathlib

/-!
Verification development for the vanguard-api repository.

Shallow embedding of:
- the order placement flow of src/vanguard/order.py (Order.place_order),
- the holdings table parsing of src/vanguard/account.py (AllAccount._parse_rows),
- the login state machine of src/vanguard/session.py
  (VanguardSession.find_login_state and VanguardSession.login).

Browser interaction is modelled by environment structures that record what
each page query or wait would observe: a Bool field is true when the awaited
element appears within its bound, an Option field is none when the
corresponding wait times out.  Waits that the source wraps in
try/except PlaywrightTimeoutError degrade as the source does; waits that the
source leaves unwrapped surface as an error value of the whole function.
Machine floats are modelled as exact decimal rationals plus the special
values inf and nan; Python string primitives (replace, strip, split,
negative indexing, float()) are re-implemented below on lists of characters
so that every definition evaluates inside the kernel.
-/

namespace Vanguard

/-! ### Python string primitives -/

/-- Python whitespace characters stripped by str.strip() and float(). -/
def isPySpace (c : Char) : Bool :=
  c = ' ' || c = '\t' || c = '\n' || c = '\r' || c = '\x0b' || c = '\x0c'

def dropLeadingSpace : List Char → List Char
  | [] => []
  | c :: t => if isPySpace c then dropLeadingSpace t else c :: t

/-- Python str.strip(): remove leading and trailing whitespace. -/
def pyStrip (l : List Char) : List Char :=
  ((dropLeadingSpace ((dropLeadingSpace l).reverse)).reverse)

/-- If pat is a literal prefix of l, return the remainder of l. -/
def dropLit : List Char → List Char → Option (List Char)
  | [], l => some l
  | _ :: _, [] => none
  | p :: ps, c :: cs => if c = p then dropLit ps cs else none

/-- Fueled worker for pyReplace; fuel bounds the number of characters consumed. -/
def pyReplaceGo (pat rep : List Char) : Nat → List Char → List Char
  | 0, l => l
  | _ + 1, [] => []
  | fuel + 1, c :: t =>
    match dropLit pat (c :: t) with
    | some rest =>
      if pat.isEmpty then c :: pyReplaceGo pat rep fuel t
      else rep ++ pyReplaceGo pat rep fuel rest
    | none => c :: pyReplaceGo pat rep fuel t

/-- Python str.replace(pat, rep): replace every non-overlapping occurrence,
left to right. -/
def pyReplace (pat rep l : List Char) : List Char :=
  pyReplaceGo pat rep l.length l

/-- Fueled worker for pySplitOn. -/
def pySplitGo (sep : List Char) : Nat → List Char → List Char → List (List Char)
  | 0, acc, l => [acc.reverse ++ l]
  | _ + 1, acc, [] => [acc.reverse]
  | fuel + 1, acc, c :: t =>
    match dropLit sep (c :: t) with
    | some rest =>
      if sep.isEmpty then pySplitGo sep fuel (c :: acc) t
      else acc.reverse :: pySplitGo sep fuel [] rest
    | none => pySplitGo sep fuel (c :: acc) t

/-- Python str.split(sep) for a non-empty separator. -/
def pySplitOn (l sep : List Char) : List (List Char) :=
  pySplitGo sep l.length [] l

/-- Python list indexing with negative-index support; none models IndexError. -/
def pyGet (l : List String) (i : Int) : Option String :=
  if 0 ≤ i then l.get? i.toNat
  else
    let j : Int := (l.length : Int) + i
    if 0 ≤ j then l.get? j.toNat else none

/-- True when pat occurs as a contiguous substring of l (Python: pat in l). -/
def containsSub (pat : List Char) : List Char → Bool
  | [] => (dropLit pat ([] : List Char)).isSome
  | c :: t => (dropLit pat (c :: t)).isSome || containsSub pat t

/-! ### Python float() on strings, with values as exact rationals -/

/-- The value of a Python float: an exact decimal num / 10 ^ scale kept in
normalized form (scale minimal), or a special value.  Decimals are exact
here; the interpretation into ℚ is pyVal below. -/
inductive PyFloat
  | finite (num : Int) (scale : Nat)
  | inf
  | negInf
  | nan
deriving DecidableEq

/-- The rational value of a finite decimal num / 10 ^ scale. -/
def pyVal (num : Int) (scale : Nat) : ℚ :=
  (num : ℚ) / (10 : ℚ) ^ scale

/-- Strip factors of ten shared by the mantissa and the scale. -/
def normDecGo : Nat → Int → Nat → Int × Nat
  | 0, n, s => (n, s)
  | fuel + 1, n, s =>
    if s = 0 then (n, s)
    else if n % 10 = 0 then normDecGo fuel (n / 10) (s - 1)
    else (n, s)

def normDec (n : Int) (s : Nat) : Int × Nat := normDecGo s n s

/-- Numeric value of a string of decimal digits. -/
def digitsVal (l : List Char) : Nat :=
  l.foldl (fun acc c => 10 * acc + (c.toNat - '0'.toNat)) 0

/-- Continuation of a digit sequence after at least one digit has been read:
further digits, or a single underscore that must be followed by a digit
(anything else, including a trailing or doubled underscore, stops the
sequence and is left in the remainder, where it then fails the
full-consumption check).  Returns the digits read and the rest of the
input. -/
def digSeqRest : List Char → List Char × List Char
  | [] => ([], [])
  | c :: rest =>
    if c.isDigit then
      let r := digSeqRest rest
      (c :: r.1, r.2)
    else if c = '_' then
      match rest with
      | [] => ([], [c])
      | d :: rest2 =>
        if d.isDigit then
          let r := digSeqRest rest2
          (d :: r.1, r.2)
        else ([], c :: rest)
    else ([], c :: rest)

/-- Consume a Python digit sequence: it must start with a digit (a leading
underscore is not part of a digit group and is left unconsumed), and single
underscores are allowed only between digits.  Returns the digits read and
the rest of the input. -/
def digSeqGo : List Char → List Char × List Char
  | [] => ([], [])
  | c :: rest =>
    if c.isDigit then
      let r := digSeqRest rest
      (c :: r.1, r.2)
    else ([], c :: rest)

/-- A digit sequence that must be non-empty. -/
def parseDigitSeq (l : List Char) : Option (List Char × List Char) :=
  let r := digSeqGo l
  if r.1.isEmpty then none else some r

/-- Value of an integer part together with a fractional part, as an
unnormalized decimal (mantissa, scale) pair. -/
def mantissaVal (ip fp : List Char) : Int × Nat :=
  ((digitsVal (ip ++ fp) : Int), fp.length)

/-- Parse the mantissa of a float literal: digits, an optional point, more
digits; at least one digit overall. -/
def parseMantissa (l : List Char) : Option ((Int × Nat) × List Char) :=
  match parseDigitSeq l with
  | some (ip, rest) =>
    match rest with
    | '.' :: rest2 =>
      let r := digSeqGo rest2
      some (mantissaVal ip r.1, r.2)
    | _ => some (mantissaVal ip [], rest)
  | none =>
    match l with
    | '.' :: rest2 =>
      match parseDigitSeq rest2 with
      | some (fp, rest3) => some (mantissaVal [] fp, rest3)
      | none => none
    | _ => none

/-- Parse an optional exponent part (e or E, optional sign, digits). -/
def parseExpPart (l : List Char) : Option (Int × List Char) :=
  match l with
  | [] => some (0, [])
  | c :: rest =>
    if c = 'e' || c = 'E' then
      match rest with
      | '+' :: rest2 => (parseDigitSeq rest2).map (fun r => ((digitsVal r.1 : Int), r.2))
      | '-' :: rest2 => (parseDigitSeq rest2).map (fun r => (-(digitsVal r.1 : Int), r.2))
      | _ => (parseDigitSeq rest).map (fun r => ((digitsVal r.1 : Int), r.2))
    else some (0, c :: rest)

/-- Apply a decimal exponent to an unnormalized (mantissa, scale) pair. -/
def applyExp (m : Int × Nat) (e : Int) : Int × Nat :=
  if 0 ≤ e then (m.1 * (10 : Int) ^ e.toNat, m.2) else (m.1, m.2 + (-e).toNat)

def lowerEq (l : List Char) (s : List Char) : Bool :=
  l.map Char.toLower == s

/-- Parse an unsigned Python float literal (after sign removal). -/
def pyFloatCore (l : List Char) : Option PyFloat :=
  if lowerEq l ("inf".toList) || lowerEq l ("infinity".toList) then some PyFloat.inf
  else if lowerEq l ("nan".toList) then some PyFloat.nan
  else
    match parseMantissa l with
    | some (m, rest) =>
      match parseExpPart rest with
      | some (e, rest2) =>
        if rest2.isEmpty then
          let d := normDec (applyExp m e).1 (applyExp m e).2
          some (PyFloat.finite d.1 d.2)
        else none
      | none => none
    | none => none

def pyNegate : PyFloat → PyFloat
  | PyFloat.finite n s => PyFloat.finite (-n) s
  | PyFloat.inf => PyFloat.negInf
  | PyFloat.negInf => PyFloat.inf
  | PyFloat.nan => PyFloat.nan

/-- Python float(s): strip whitespace, optional sign, then number, inf or nan.
none models a ValueError. -/
def pyFloat (l0 : List Char) : Option PyFloat :=
  let l := pyStrip l0
  match l with
  | '+' :: r => pyFloatCore r
  | '-' :: r => (pyFloatCore r).map pyNegate
  | _ => pyFloatCore l

/-! ### account.py: AllAccount._parse_rows

A table row is modelled by the inner texts of its th cells and of its td
cells, in page order.  The parser collects six column lists from the data
rows (index 2 onward) and, on the last row of the block, zips them
position-wise with None padding (itertools.zip_longest with fillvalue=None)
into holding records.  The bookkeeping that stores the resulting list under
the account and bucket key in accounts_positions is keyed storage around
these records and is not modelled.
-/

structure HRow where
  ths : List String
  tds : List String
deriving DecidableEq

/-- One holding record; a none field is the null produced by zip_longest
padding. -/
structure Stock where
  symbol : Option String
  description : Option String
  price : Option PyFloat
  dollar_change : Option String
  percent_change : Option String
  quantity : Option PyFloat
deriving DecidableEq

structure Cols where
  symbols : List String
  descriptions : List String
  prices : List PyFloat
  dollarChanges : List String
  percentChanges : List String
  quantities : List PyFloat
deriving DecidableEq

def emptyCols : Cols := ⟨[], [], [], [], [], []⟩

/-- The text of a price cell after stripping dollar signs and commas:
price_text.replace two times then strip, as in the source. -/
def cleanPrice (s : String) : List Char :=
  pyStrip (pyReplace [','] [] (pyReplace ['$'] [] s.toList))

/-- float(price_text.replace ...) wrapped in try/except ValueError: a failed
parse (pyFloat = none) degrades to 0.0. -/
def parsePriceCell (s : String) : PyFloat :=
  match pyFloat (cleanPrice s) with
  | some v => v
  | none => PyFloat.finite 0 0

/-- float(price.inner_text()) wrapped in try/except ValueError. -/
def parseQuantityCell (s : String) : PyFloat :=
  match pyFloat s.toList with
  | some v => v
  | none => PyFloat.finite 0 0

/-- Collect the contributions of one data row: th cells at relative
positions 1 and 2 are symbol and description, td cells at positions 0 to 3
are price, dollar change, percent change and quantity. -/
def collectRow (acc : Cols) (r : HRow) : Cols :=
  let a1 := match r.ths.get? 1 with
    | some s => { acc with symbols := acc.symbols ++ [String.mk (pyStrip s.toList)] }
    | none => acc
  let a2 := match r.ths.get? 2 with
    | some s => { a1 with descriptions := a1.descriptions ++ [String.mk (pyStrip s.toList)] }
    | none => a1
  let a3 := match r.tds.get? 0 with
    | some s => { a2 with prices := a2.prices ++ [parsePriceCell s] }
    | none => a2
  let a4 := match r.tds.get? 1 with
    | some s => { a3 with dollarChanges := a3.dollarChanges ++ [s] }
    | none => a3
  let a5 := match r.tds.get? 2 with
    | some s => { a4 with percentChanges := a4.percentChanges ++ [s] }
    | none => a4
  match r.tds.get? 3 with
  | some s => { a5 with quantities := a5.quantities ++ [parseQuantityCell s] }
  | none => a5

def collectColsGo : List HRow → Nat → Cols → Cols
  | [], _, acc => acc
  | r :: rest, i, acc => collectColsGo rest (i + 1) (if 2 ≤ i then collectRow acc r else acc)

/-- The six column lists collected from rows with index 2 onward. -/
def collectCols (rows : List HRow) : Cols := collectColsGo rows 0 emptyCols

/-- Length of the longest of the six column lists. -/
def max6 (c : Cols) : Nat :=
  max c.symbols.length (max c.descriptions.length (max c.prices.length
    (max c.dollarChanges.length (max c.percentChanges.length c.quantities.length))))

/-- itertools.zip_longest over the six columns with fillvalue None:
record i holds the i-th entry of each column when present, none otherwise. -/
def zipStocks (c : Cols) : List Stock :=
  (List.range (max6 c)).map fun i =>
    ⟨c.symbols.get? i, c.descriptions.get? i, c.prices.get? i,
     c.dollarChanges.get? i, c.percentChanges.get? i, c.quantities.get? i⟩

/-- AllAccount._parse_rows, restricted to the holding records it assembles:
data rows are collected and, on the last row (which exists whenever the row
list is non-empty), the columns are zipped into records. -/
def parse_rows (rows : List HRow) : List Stock :=
  match rows with
  | [] => []
  | _ => zipStocks (collectCols rows)

/-- Stub table for C6: two data rows whose price cells read "$1,234.56" and
"n/a" and whose quantity cells read "3" and "x". -/
def stub6 : List HRow :=
  [⟨["Stocks"], []⟩, ⟨[], []⟩,
   ⟨["h", "AAA", "Alpha"], ["$1,234.56", "+1", "+1%", "3"]⟩,
   ⟨["h", "BBB", "Beta"], ["n/a", "-1", "-1%", "x"]⟩]

/-- Stub table for C7: three data rows giving three symbols but only two
price, change and quantity cells. -/
def stub7 : List HRow :=
  [⟨["Stocks"], []⟩, ⟨[], []⟩,
   ⟨["h", "AAPL", "Apple Inc"], ["$10.00", "+1", "+1%", "2"]⟩,
   ⟨["h", "MSFT", "Microsoft"], ["$20.00", "-1", "-1%", "3"]⟩,
   ⟨["h", "VTI", "Vanguard ETF"], []⟩]

/-! ### order.py: enums and the Order.place_order flow

The page environment OrderPage records, for each wait or locator query that
place_order performs, whether the element appears (and with which text).
The function returns a pair of the outcome (Except, where error models an
exception escaping place_order) and the list of page actions performed, in
order; the action list is the trace used to state that later steps of the
flow were or were not executed.
-/

/-- PriceType enum of order.py; comparisons in the source go through the
string values returned by priceTypeValue. -/
inductive PriceType
  | LIMIT
  | MARKET
  | STOP
  | STOP_LIMIT
deriving DecidableEq

def priceTypeValue : PriceType → String
  | PriceType.LIMIT => "LIMIT"
  | PriceType.MARKET => "MARKET"
  | PriceType.STOP => "STOP"
  | PriceType.STOP_LIMIT => "STOP_LIMIT"

/-- Duration enum of order.py. -/
inductive Duration
  | DAY
  | GTC
  | ON_OPEN
  | ON_CLOSE
  | I_C
deriving DecidableEq

def durationValue : Duration → String
  | Duration.DAY => "DAY"
  | Duration.GTC => "GOOD_TILL_CANCELLED"
  | Duration.ON_OPEN => "ON_THE_OPEN"
  | Duration.ON_CLOSE => "ON_THE_CLOSE"
  | Duration.I_C => "IMMEDIATE_OR_CANCEL"

/-- OrderSide enum of order.py. -/
inductive OrderSide
  | BUY
  | SELL
deriving DecidableEq

def orderSideValue : OrderSide → String
  | OrderSide.BUY => "BUY"
  | OrderSide.SELL => "SELL"

/-- Exceptions that can escape place_order. -/
inductive PyError
  | playwrightTimeout
  | indexError
  | exn (msg : String)
deriving DecidableEq

/-- Page actions performed by place_order, in source order. -/
inductive Action
  | selectAccount
  | clickQuoteBox
  | fillSymbol
  | pressTab
  | dismissModal
  | clickBuy
  | clickSell
  | fillQuantity
  | clickMarket
  | clickLimit
  | clickStop
  | clickStopLimit
  | fillLimitPrice
  | fillStopPrice
  | clickDay
  | clickGtc
  | clickSellOk
  | clickCostBasisCheckbox
  | clickContinue
  | clickPreview
  | clickAfterHoursContinue
  | checkSubmitVisible
  | clickSubmit
  | dismissSurvey
  | readConfirmation
deriving DecidableEq

/-- Value of the ORDER INVALID field: a plain string, or the structured
warning-panel dictionary keyed by its header. -/
inductive InvalidVal
  | str (s : String)
  | panel (header : String) (items : List String)
deriving DecidableEq

/-- Value of the ORDER CONFIRMATION field: a plain string, or the parsed
confirmation dictionary with order number, date and time. -/
inductive ConfirmVal
  | str (s : String)
  | conf (number date time : String)
deriving DecidableEq

/-- The order_messages dictionary returned by place_order. -/
structure OrderMessages where
  invalid : InvalidVal
  preview : String
  confirmation : ConfirmVal
deriving DecidableEq

/-- What the confirmation page shows: the text of the Order # element, and
the texts of the Submitted at and Submitted on elements when they appear. -/
structure ConfirmPage where
  orderText : String
  submittedAt : Option String
  submittedOn : Option String
deriving DecidableEq

/-- Environment describing what each wait in place_order observes. -/
structure OrderPage where
  accountBoxAppears : Bool
  quoteBoxAppears : Bool
  quotePoll : Nat → Option String
  modalAppears : Bool
  buyButtonAppears : Bool
  sellButtonAppears : Bool
  quantityBoxAppears : Bool
  marketRadioAppears : Bool
  limitRadioAppears : Bool
  stopRadioAppears : Bool
  stopLimitRadioAppears : Bool
  limitFieldAppears : Bool
  stopFieldAppears : Bool
  dayClickOk : Bool
  gtcClickOk : Bool
  sellOkVisible : Bool
  costBasisAppears : Bool
  checkBoxClickOk : Bool
  continueVisible : Bool
  warningDivAppears : Bool
  warningText : Option String
  warningItems : List String
  previewVisible : Bool
  afterHoursContinueVisible : Bool
  submitVisible : Bool
  surveyAppears : Bool
  confirmation : Option ConfirmPage

/-- Arguments of place_order. -/
structure OrderArgs where
  quantity : Nat
  priceType : PriceType
  symbol : String
  duration : Duration
  orderSide : OrderSide
  limitPrice : ℚ
  stopPrice : ℚ
  afterHours : Bool
  dryRun : Bool

/-- The quote polling loop (for _ in range(12)): each iteration waits for the
quote element (an unwrapped wait, so a timeout raises) and breaks as soon as
the text differs from the placeholder; the value of the loop is the last text
read. -/
def pollGo (f : Nat → Option String) : Nat → Nat → Except PyError String
  | _, 0 => Except.ok "$—"
  | i, n + 1 =>
    match f i with
    | none => Except.error PyError.playwrightTimeout
    | some t =>
      if t = "$—" then (if n = 0 then Except.ok t else pollGo f (i + 1) n)
      else Except.ok t

def pollQuote (f : Nat → Option String) : Except PyError String := pollGo f 0 12

/-- Buy/Sell label selection; these waits are unwrapped in the source, so a
missing control (none) raises. -/
def sideStep (pg : OrderPage) (a : OrderArgs) : Option (List Action) :=
  if orderSideValue a.orderSide = "BUY" then
    (if pg.buyButtonAppears then some [Action.clickBuy] else none)
  else if orderSideValue a.orderSide = "SELL" then
    (if pg.sellButtonAppears then some [Action.clickSell] else none)
  else some []

/-- duration in ["DAY", "GOOD_TILL_CANCELLED"], via the enum string values. -/
def durationOk (d : Duration) : Bool :=
  ["DAY", "GOOD_TILL_CANCELLED"].contains (durationValue d)

/-- The ORDER INVALID message the duration check writes for each non-market
price type (the source uses the Stop wording for STOP_LIMIT as well). -/
def durationMsg : PriceType → String
  | PriceType.LIMIT => "Limit orders must be DAY or GOOD TILL CANCELLED."
  | _ => "Stop orders must be DAY or GOOD TILL CANCELLED."

/-- Outcome of the price-type try block: an early return with an ORDER
INVALID message, or fall-through with the actions performed. -/
inductive StepOut
  | ret (msg : String)
  | cont (tr : List Action)
deriving DecidableEq

/-- The price-type try block: radio selection per price type, the duration
validity check for LIMIT/STOP/STOP_LIMIT (before any wait), and the limit and
stop price fills.  A timeout anywhere in the block is caught and skips the
rest of the block. -/
def priceStep (pg : OrderPage) (a : OrderArgs) : StepOut :=
  match a.priceType with
  | PriceType.MARKET =>
    StepOut.cont (if pg.marketRadioAppears then [Action.clickMarket] else [])
  | PriceType.LIMIT =>
    if durationOk a.duration then
      StepOut.cont (if pg.limitRadioAppears then
        Action.clickLimit :: (if pg.limitFieldAppears then [Action.fillLimitPrice] else [])
      else [])
    else StepOut.ret (durationMsg PriceType.LIMIT)
  | PriceType.STOP =>
    if durationOk a.duration then
      StepOut.cont (if pg.stopRadioAppears then
        Action.clickStop :: (if pg.stopFieldAppears then [Action.fillStopPrice] else [])
      else [])
    else StepOut.ret (durationMsg PriceType.STOP)
  | PriceType.STOP_LIMIT =>
    if durationOk a.duration then
      StepOut.cont (if pg.stopLimitRadioAppears then
        Action.clickStopLimit ::
          (if pg.limitFieldAppears then
            Action.fillLimitPrice :: (if pg.stopFieldAppears then [Action.fillStopPrice] else [])
          else [])
      else [])
    else StepOut.ret (durationMsg PriceType.STOP_LIMIT)

/-- The sell-specific cost-basis steps inside the duration try block. -/
def sellSteps (pg : OrderPage) (a : OrderArgs) : List Action :=
  if orderSideValue a.orderSide = "SELL" then
    (if pg.sellOkVisible then [Action.clickSellOk] else []) ++
    (if pg.costBasisAppears then
      (if pg.checkBoxClickOk then [Action.clickCostBasisCheckbox] else [])
    else [])
  else []

/-- The duration try block: Day or 60-day(GTC) click as applicable, then the
sell cost-basis steps; a timeout is caught and skips the rest of the block. -/
def durationStep (pg : OrderPage) (a : OrderArgs) : List Action :=
  if durationValue a.duration = "DAY" ∧ priceTypeValue a.priceType ≠ "MARKET" then
    (if pg.dayClickOk then Action.clickDay :: sellSteps pg a else [])
  else if durationValue a.duration = "GOOD_TILL_CANCELLED" then
    (if pg.gtcClickOk then Action.clickGtc :: sellSteps pg a else [])
  else sellSteps pg a

def continueStep (pg : OrderPage) : List Action :=
  if pg.continueVisible then [Action.clickContinue] else []

/-- Header of the warning panel:
text.replace("error", "").split(":")[0].strip(). -/
def headerOf (wtext : String) : String :=
  String.mk (pyStrip ((pySplitOn (pyReplace ("error".toList) [] wtext.toList) [':']).headD []))

/-- The de-duplication loop over the warning list items.  It appends the
first item, then appends any item differing from the element at index i-1 of
the accumulated list (Python indexing, so -1 reads the last element at i=0);
a none result models the IndexError raised when that index is out of range. -/
def collectGo : List String → Nat → List String → Option (List String)
  | [], _, acc => some acc
  | item :: rest, i, acc =>
    let acc1 := if i = 0 then acc ++ [item] else acc
    match pyGet acc1 ((i : Int) - 1) with
    | none => none
    | some prev =>
      collectGo rest (i + 1) (if prev ≠ item then acc1 ++ [item] else acc1)

def collectItems (items : List String) : Option (List String) :=
  collectGo items 0 []

/-- Outcome of the validation banner block. -/
inductive WOut
  | ret (header : String) (items : List String)
  | indexErr
  | cont
deriving DecidableEq

/-- The validation banner check: if the trade-detail panel appears and the
warning text loads, collect the header and the de-duplicated items (an
IndexError in the loop escapes place_order, since the except clause catches
only timeouts); any timeout in the block falls through. -/
def warningStep (pg : OrderPage) : WOut :=
  if pg.warningDivAppears then
    match pg.warningText with
    | some wtext =>
      match collectItems pg.warningItems with
      | some items => WOut.ret (headerOf wtext) items
      | none => WOut.indexErr
    | none => WOut.cont
  else WOut.cont

def previewStep (pg : OrderPage) : List Action :=
  if pg.previewVisible then [Action.clickPreview] else []

def afterHoursStep (pg : OrderPage) (a : OrderArgs) : List Action :=
  if a.afterHours then
    (if pg.afterHoursContinueVisible then [Action.clickAfterHoursContinue] else [])
  else []

/-- Maximal digit prefix of the input. -/
def takeDigits : List Char → List Char × List Char
  | [] => ([], [])
  | c :: rest =>
    if c.isDigit then
      let r := takeDigits rest
      (c :: r.1, r.2)
    else ([], c :: rest)

/-- Maximal letter prefix of the input. -/
def takeLetters : List Char → List Char × List Char
  | [] => ([], [])
  | c :: rest =>
    if c.isAlpha then
      let r := takeLetters rest
      (c :: r.1, r.2)
    else ([], c :: rest)

/-- Consume exactly n digits. -/
def exactDigits : Nat → List Char → Option (List Char)
  | 0, l => some l
  | _ + 1, [] => none
  | n + 1, c :: rest => if c.isDigit then exactDigits n rest else none

/-- Consume one or two digits (the regex piece d followed by an optional d,
matched maximally). -/
def digits12 (l : List Char) : Option (List Char) :=
  let r := takeDigits l
  if r.1.length = 1 ∨ r.1.length = 2 then some r.2 else none

/-- Attempt the order-number pattern Order # followed by digits at the head
of the input, returning the captured digits. -/
def matchOrderNum (l : List Char) : Option (List Char) :=
  match dropLit ("Order #".toList) l with
  | some rest =>
    let r := takeDigits rest
    if r.1.isEmpty then none else some r.1
  | none => none

def searchOrderGo : List Char → Option (List Char)
  | [] => none
  | c :: t =>
    match matchOrderNum (c :: t) with
    | some r => some r
    | none => searchOrderGo t

/-- re.search for Order # and a captured digit group. -/
def searchOrderNumber (s : String) : Option String :=
  (searchOrderGo s.toList).map String.mk

/-- Attempt the timestamp group of the Submitted regex at the head of g,
returning the input remaining after the group. -/
def matchSubTail (g : List Char) : Option (List Char) := do
  let r1 ← digits12 g
  let r2 ← dropLit [':'] r1
  let r3 ← exactDigits 2 r2
  let r4 ← dropLit [' '] r3
  let r5 ← (match r4 with
    | c :: rest => if c = 'a' ∨ c = 'p' then some rest else none
    | [] => none)
  let r6 ← dropLit (".m., ET ".toList) r5
  let rl := takeLetters r6
  if rl.1.isEmpty then none else do
  let r8 ← dropLit [' '] rl.2
  let r9 ← digits12 r8
  let r10 ← dropLit (", ".toList) r9
  exactDigits 4 r10

/-- Attempt the full Submitted (at|on) pattern at the head of the input,
returning the captured timestamp group. -/
def matchSubmitted (l : List Char) : Option (List Char) :=
  match dropLit ("Submitted ".toList) l with
  | none => none
  | some r0 =>
    match (match dropLit ("at ".toList) r0 with
           | some r => some r
           | none => dropLit ("on ".toList) r0) with
    | none => none
    | some g =>
      match matchSubTail g with
      | some rest => some (g.take (g.length - rest.length))
      | none => none

def searchSubGo : List Char → Option (List Char)
  | [] => none
  | c :: t =>
    match matchSubmitted (c :: t) with
    | some r => some r
    | none => searchSubGo t

/-- re.search for the Submitted (at|on) timestamp group. -/
def searchSubmitted (s : String) : Option String :=
  (searchSubGo s.toList).map String.mk

/-- The confirmation parsing block: waits for the Order # and Submitted
banners (a timeout on either yields the failure string), extracts the order
number, and splits the timestamp on ", ET" into date and time. -/
def confirmStep (pg : OrderPage) : ConfirmVal :=
  match pg.confirmation with
  | none => ConfirmVal.str "No order confirmation page found. Order Failed."
  | some c =>
    match (match c.submittedAt with
           | some t => some t
           | none => c.submittedOn) with
    | none => ConfirmVal.str "No order confirmation page found. Order Failed."
    | some dtext =>
      let number := match searchOrderNumber c.orderText with
        | some n => n
        | none => "No order number found."
      match searchSubmitted dtext with
      | some dstr =>
        let parts := pySplitOn dstr.toList (", ET".toList)
        if 1 < parts.length then
          ConfirmVal.conf number (String.mk (pyStrip (parts.getD 1 [])))
            (String.mk (pyReplace ['.'] [] (parts.getD 0 [])))
        else ConfirmVal.conf number "No order date found." "No order time found."
      | none => ConfirmVal.conf number "No order date found." "No order time found."

/-- The submit block: if the submit control is not visible within its bound,
the caught timeout is re-raised as a plain Exception; otherwise the ORDER
PREVIEW message is recorded, a dry run returns at once, and a live run clicks
submit and parses the confirmation page. -/
def submitPhase (pg : OrderPage) (a : OrderArgs) (tr : List Action) :
    Except PyError OrderMessages × List Action :=
  if pg.submitVisible then
    if a.dryRun then
      (Except.ok ⟨InvalidVal.str "No invalid order message found.",
        "Order preview loaded correctly.", ConfirmVal.str ""⟩,
       tr ++ [Action.checkSubmitVisible])
    else
      (Except.ok ⟨InvalidVal.str "No invalid order message found.",
        "Order preview loaded correctly.", confirmStep pg⟩,
       tr ++ [Action.checkSubmitVisible, Action.clickSubmit] ++
         (if pg.surveyAppears then [Action.dismissSurvey] else []) ++
         [Action.readConfirmation])
  else
    (Except.error (PyError.exn "No place order button found cannot continue."), tr)

/-- The validation banner outcome followed by preview, after-hours and
submit: a detected banner returns the panel as ORDER INVALID, the IndexError
escapes, and fall-through records No invalid order message found. -/
def warningPhase (pg : OrderPage) (a : OrderArgs) (tr : List Action) :
    Except PyError OrderMessages × List Action :=
  match warningStep pg with
  | WOut.ret h items =>
    (Except.ok ⟨InvalidVal.panel h items, "", ConfirmVal.str ""⟩, tr)
  | WOut.indexErr => (Except.error PyError.indexError, tr)
  | WOut.cont =>
    submitPhase pg a (tr ++ previewStep pg ++ afterHoursStep pg a)

/-- Quantity entry (an unwrapped wait) followed by the price-type block and
the rest of the flow. -/
def quantityPhase (pg : OrderPage) (a : OrderArgs) (tr : List Action) :
    Except PyError OrderMessages × List Action :=
  if pg.quantityBoxAppears then
    match priceStep pg a with
    | StepOut.ret msg =>
      (Except.ok ⟨InvalidVal.str msg, "", ConfirmVal.str ""⟩, tr ++ [Action.fillQuantity])
    | StepOut.cont trP =>
      warningPhase pg a
        (tr ++ [Action.fillQuantity] ++ trP ++ durationStep pg a ++ continueStep pg)
  else (Except.error PyError.playwrightTimeout, tr)

/-- Order.place_order.  Account selection is wrapped (a timeout falls
through); the Get Quote box wait and the quote polling waits are unwrapped;
a placeholder quote after the polling loop returns immediately with the
quote failure message. -/
def place_order (pg : OrderPage) (a : OrderArgs) :
    Except PyError OrderMessages × List Action :=
  let tr0 := if pg.accountBoxAppears then [Action.selectAccount] else []
  if pg.quoteBoxAppears then
    let tr1 := tr0 ++ [Action.clickQuoteBox, Action.fillSymbol, Action.pressTab]
    match pollQuote pg.quotePoll with
    | Except.error e => (Except.error e, tr1)
    | Except.ok qp =>
      let inv := if qp ≠ "$—" then "Order page loaded correctly."
                 else "Quote did not load correctly."
      if inv ≠ "Order page loaded correctly." then
        (Except.ok ⟨InvalidVal.str inv, "", ConfirmVal.str ""⟩, tr1)
      else
        match sideStep pg a with
        | none =>
          (Except.error PyError.playwrightTimeout,
           tr1 ++ (if pg.modalAppears then [Action.dismissModal] else []))
        | some trS =>
          quantityPhase pg a
            (tr1 ++ (if pg.modalAppears then [Action.dismissModal] else []) ++ trS)
  else (Except.error PyError.playwrightTimeout, tr0)

/-! ### Concrete order environments for witnesses and counterexamples -/

/-- A fully healthy trade ticket page: every awaited control appears, the
quote loads at once, no blocking modal and no validation banner. -/
def pgHealthy : OrderPage where
  accountBoxAppears := true
  quoteBoxAppears := true
  quotePoll := fun _ => some "$10.00"
  modalAppears := false
  buyButtonAppears := true
  sellButtonAppears := true
  quantityBoxAppears := true
  marketRadioAppears := true
  limitRadioAppears := true
  stopRadioAppears := true
  stopLimitRadioAppears := true
  limitFieldAppears := true
  stopFieldAppears := true
  dayClickOk := true
  gtcClickOk := true
  sellOkVisible := false
  costBasisAppears := true
  checkBoxClickOk := true
  continueVisible := true
  warningDivAppears := false
  warningText := none
  warningItems := []
  previewVisible := true
  afterHoursContinueVisible := true
  submitVisible := true
  surveyAppears := false
  confirmation := some ⟨"Order #12345", some "Submitted at 10:30 a.m., ET January 2, 2024", none⟩

/-- A dry-run limit day order. -/
def argsDry : OrderArgs :=
  ⟨10, PriceType.LIMIT, "AAPL", Duration.DAY, OrderSide.BUY, 10, 0, false, true⟩

/-- The same order placed for real (dry_run false). -/
def argsLive : OrderArgs := { argsDry with dryRun := false }

/-- A limit order whose duration is ON_THE_OPEN (invalid for limit orders). -/
def argsBadDuration : OrderArgs := { argsDry with duration := Duration.ON_OPEN }

/-- Healthy page whose quote polls always return the placeholder. -/
def pgStuckQuote : OrderPage := { pgHealthy with quotePoll := fun _ => some "$—" }

/-- Healthy page whose Get Quote box never appears. -/
def pgNoQuoteBox : OrderPage := { pgHealthy with quoteBoxAppears := false, accountBoxAppears := false }

/-- Healthy page whose Buy label never appears. -/
def pgNoBuyButton : OrderPage := { pgHealthy with buyButtonAppears := false }

/-- Healthy page whose submit control never becomes visible. -/
def pgNoSubmit : OrderPage := { pgHealthy with submitVisible := false }

/-- Healthy page showing the validation banner with a consecutive duplicate
followed by a further item among its list items. -/
def pgWarning : OrderPage :=
  { pgHealthy with
    warningDivAppears := true
    warningText := some "errorBefore you can proceed: correct the following"
    warningItems := ["Quantity is required.", "Quantity is required.", "Price is required."] }

/-! ### session.py: find_login_state and login

The classifier polls the page up to 120 times; each iteration is described
by a LoginProbe stating which of the recognized markers are present at that
moment.  The login flow is driven by the classifier result; browser-level
side effects (navigation, persisting storage state, closing the browser) are
recorded as session actions.
-/

/-- What one classifier iteration observes. -/
structure LoginProbe where
  urlIsLanding : Bool
  accountsHeader : Bool
  passwordSubmitBtn : Bool
  chooseMethodBtn : Bool
  dontSeeApp : Bool
  codeBox : Bool
  challengesUrl : Bool

/-- One pass of the find_login_state loop, threading the local mode
variable: landing page with the Accounts header returns 1, the credential
submit button 2, the choose-method button 3, the app-confirmation link only
assigns mode 4 without returning, the code box returns 5, the challenges URL
returns 1; an exhausted loop assigns mode 0 and returns it.  (The initial
mode argument models the unassigned Python local; it is never returned.) -/
def findLoginGo (probes : Nat → LoginProbe) : Nat → Nat → Nat → Nat
  | _, 0, _ => 0
  | i, fuel + 1, mode =>
    if (probes i).urlIsLanding && (probes i).accountsHeader then 1
    else if (probes i).passwordSubmitBtn then 2
    else if (probes i).chooseMethodBtn then 3
    else if (probes i).codeBox then 5
    else if (probes i).challengesUrl then 1
    else findLoginGo probes (i + 1) fuel (if (probes i).dontSeeApp then 4 else mode)

/-- VanguardSession.find_login_state: 120 classifier iterations. -/
def find_login_state (probes : Nat → LoginProbe) : Nat :=
  findLoginGo probes 0 120 0

/-- Session-level side effects recorded by the login flow. -/
inductive SAction
  | goLoginPage
  | stopTracing
  | saveStorageState
  | closeBrowser
  | typeUsername
  | typePassword
  | clickSignIn
  | clickDontSeeApp
  | clickContinueLogin
  | clickChooseMethod
  | clickOtpCard
  | clickTextOption
deriving DecidableEq

/-- The session fields login consults: the profile title and the debug
flag. -/
structure SessionCfg where
  title : Option String
  debug : Bool

/-- Environment for one login call: the navigation outcome, the classifier
probes, and what each later wait observes. -/
structure LoginEnv where
  gotoError : Option String
  probes : Nat → LoginProbe
  userBox : Bool
  passwordBox : Bool
  submitBtn1 : Bool
  dontSeeLink : Bool
  continueBtn : Bool
  chooseBtn : Bool
  otpCards : Option (List String)
  textDiv : Bool

/-- VanguardSession.close_browser: stop tracing when debugging, persist the
storage state, close the browser. -/
def close_browser (cfg : SessionCfg) : List SAction :=
  (if cfg.debug then [SAction.stopTracing] else []) ++
    [SAction.saveStorageState, SAction.closeBrowser]

/-- The state-2 credential block.  The USER wait is wrapped (a timeout skips
the block); the password box and the submit button are fetched with
query_selector, so a missing element is a None whose method call raises an
AttributeError that the timeout-only except clause does not catch. -/
def credsBlock (env : LoginEnv) : Except String (List SAction) :=
  if env.userBox then
    if env.passwordBox then
      if env.submitBtn1 then
        Except.ok [SAction.typeUsername, SAction.typePassword, SAction.clickSignIn]
      else Except.error "AttributeError"
    else Except.error "AttributeError"
  else Except.ok []

/-- The two-factor block run for states 2, 3 and 4: dismiss the
app-confirmation prompt, pick the verification method, click the OTP card
matching the last four digits, then request a text code (returning true) or,
on a timeout, persist state when a profile title is set and return false. -/
def twoFaBlock (env : LoginEnv) (cfg : SessionCfg) (lastFour : String) :
    Bool × List SAction :=
  let tr1 :=
    if env.dontSeeLink then
      SAction.clickDontSeeApp ::
        (if env.continueBtn then [SAction.clickContinueLogin] else [])
    else []
  let tr2 := tr1 ++ (if env.chooseBtn then [SAction.clickChooseMethod] else [])
  let tr3 := tr2 ++
    (match env.otpCards with
     | some cards =>
       match cards.find? (fun c => c == "***-***-" ++ lastFour) with
       | some _ => [SAction.clickOtpCard]
       | none => []
     | none => [])
  if env.textDiv then (true, tr3 ++ [SAction.clickTextOption])
  else (false, tr3 ++ (if cfg.title.isSome then [SAction.saveStorageState] else []))

/-- The body of the login try block once navigation has succeeded: classify
the login state, raise on state 0 (the raise is caught by the outer handler,
which closes the session and re-raises the wrapped error), return False when
already logged in, fill credentials on state 2, run the two-factor block for
states 2, 3 and 4, return True on state 5. -/
def loginBody (env : LoginEnv) (cfg : SessionCfg) (lastFour : String) :
    Except String (Option Bool) × List SAction :=
  let s := find_login_state env.probes
  if s = 0 then
    (Except.error "Error in first step of login into Vanguard: Failed to find login state",
     SAction.goLoginPage :: close_browser cfg)
  else if s = 1 then (Except.ok (some false), [SAction.goLoginPage])
  else
    match (if s = 2 then credsBlock env else Except.ok []) with
    | Except.error e =>
      (Except.error ("Error in first step of login into Vanguard: " ++ e),
       SAction.goLoginPage :: close_browser cfg)
    | Except.ok trC =>
      if s = 2 ∨ s = 3 ∨ s = 4 then
        let r := twoFaBlock env cfg lastFour
        (Except.ok (some r.1), SAction.goLoginPage :: (trC ++ r.2))
      else if s = 5 then (Except.ok (some true), SAction.goLoginPage :: trC)
      else (Except.ok none, SAction.goLoginPage :: trC)

/-- VanguardSession.login.  go_url swallows only navigation errors that
mention NS_BINDING_ABORTED; any other exception in the try block reaches the
outer handler, which closes the session (persisting state) and raises the
wrapped error with the original message attached. -/
def login (env : LoginEnv) (cfg : SessionCfg) (lastFour : String) :
    Except String (Option Bool) × List SAction :=
  match env.gotoError with
  | some e =>
    if containsSub ("NS_BINDING_ABORTED".toList) e.toList then loginBody env cfg lastFour
    else
      (Except.error ("Error in first step of login into Vanguard: " ++ e),
       SAction.goLoginPage :: close_browser cfg)
  | none => loginBody env cfg lastFour

/-- A probe where no recognized marker is present. -/
def probeNone : LoginProbe := ⟨false, false, false, false, false, false, false⟩

/-- A login environment whose classifier never matches any state. -/
def loginEnvStuck : LoginEnv :=
  ⟨none, fun _ => probeNone, true, true, true, true, true, true, none, true⟩

def cfgPlain : SessionCfg := ⟨none, false⟩

/-! ### Theorems -/

deriving instance DecidableEq for Except

set_option maxRecDepth 8000

-- pollQuote helper
theorem pollGo_const (f : Nat → Option String) :
    ∀ n i, (∀ j, j < n → f (i + j) = some "$—") → pollGo f i n = Except.ok "$—" := by
  intro n
  induction n with
  | zero => intro i _; rfl
  | succ m ih =>
    intro i h
    have h0 : f i = some "$—" := by simpa using h 0 (Nat.succ_pos m)
    simp only [pollGo, h0]
    by_cases hm : m = 0
    · simp [hm]
    · simp only [if_pos rfl, hm, if_false]
      exact ih (i + 1) (fun j hj => by
        have := h (j + 1) (Nat.succ_lt_succ hj)
        simpa [Nat.add_assoc, Nat.add_comm 1 j] using this)

theorem pollQuote_placeholder (f : Nat → Option String)
    (h : ∀ j, j < 12 → f j = some "$—") : pollQuote f = Except.ok "$—" := by
  have := pollGo_const f 12 0 (fun j hj => by simpa using h j hj)
  simpa [pollQuote] using this

theorem submitPhase_fst (pg : OrderPage) (a : OrderArgs) (tr tr' : List Action) :
    (submitPhase pg a tr).1 = (submitPhase pg a tr').1 := by
  unfold submitPhase
  split
  · split <;> rfl
  · rfl

theorem place_order_reach (pg : OrderPage) (a : OrderArgs)
    (h1 : pg.quoteBoxAppears = true) (q : String)
    (h2 : pollQuote pg.quotePoll = Except.ok q) (h3 : ¬(q = "$—"))
    (trS : List Action) (h4 : sideStep pg a = some trS)
    (h5 : pg.quantityBoxAppears = true) (trP : List Action)
    (h6 : priceStep pg a = StepOut.cont trP) (h7 : warningStep pg = WOut.cont) :
    (place_order pg a).1 = (submitPhase pg a []).1 := by
  simp only [place_order, quantityPhase, warningPhase, h1, h2, h3, h4, h5, h6, h7]
  simp [h3, submitPhase_fst pg a _ []]

theorem ite_conf_ne (C : Prop) [Decidable C] (x y z u v w : String) :
    (if C then ConfirmVal.conf x y z else ConfirmVal.conf u v w) ≠ ConfirmVal.str "" := by
  split <;> simp

theorem confirmStep_ne_empty (pg : OrderPage) : confirmStep pg ≠ ConfirmVal.str "" := by
  unfold confirmStep
  repeat' split
  all_goals first
    | apply ite_conf_ne
    | simp

theorem priceStep_ret_msg (pg : OrderPage) (a : OrderArgs) (msg : String)
    (h : priceStep pg a = StepOut.ret msg) :
    msg = "Limit orders must be DAY or GOOD TILL CANCELLED." ∨
    msg = "Stop orders must be DAY or GOOD TILL CANCELLED." := by
  cases hpt : a.priceType <;> simp [priceStep, hpt] at h <;>
    split at h <;> simp_all [durationMsg]

theorem submitPhase_ok (pg : OrderPage) (a : OrderArgs) (tr : List Action)
    (m : OrderMessages) (hm : (submitPhase pg a tr).1 = Except.ok m) :
    (a.dryRun = true ∧ m = ⟨InvalidVal.str "No invalid order message found.",
        "Order preview loaded correctly.", ConfirmVal.str ""⟩) ∨
    (a.dryRun = false ∧ m = ⟨InvalidVal.str "No invalid order message found.",
        "Order preview loaded correctly.", confirmStep pg⟩) := by
  unfold submitPhase at hm
  repeat' split at hm
  all_goals simp_all

theorem warningPhase_ok (pg : OrderPage) (a : OrderArgs) (tr : List Action)
    (m : OrderMessages) (hm : (warningPhase pg a tr).1 = Except.ok m) :
    (∃ h items, m = ⟨InvalidVal.panel h items, "", ConfirmVal.str ""⟩) ∨
    (a.dryRun = true ∧ m = ⟨InvalidVal.str "No invalid order message found.",
        "Order preview loaded correctly.", ConfirmVal.str ""⟩) ∨
    (a.dryRun = false ∧ m = ⟨InvalidVal.str "No invalid order message found.",
        "Order preview loaded correctly.", confirmStep pg⟩) := by
  unfold warningPhase at hm
  split at hm
  · exact Or.inl ⟨_, _, (Except.ok.inj hm).symm⟩
  · simp_all
  · exact Or.inr (submitPhase_ok pg a _ m hm)

theorem quantityPhase_ok (pg : OrderPage) (a : OrderArgs) (tr : List Action)
    (m : OrderMessages) (hm : (quantityPhase pg a tr).1 = Except.ok m) :
    (∃ msg, priceStep pg a = StepOut.ret msg ∧
        m = ⟨InvalidVal.str msg, "", ConfirmVal.str ""⟩) ∨
    (∃ h items, m = ⟨InvalidVal.panel h items, "", ConfirmVal.str ""⟩) ∨
    (a.dryRun = true ∧ m = ⟨InvalidVal.str "No invalid order message found.",
        "Order preview loaded correctly.", ConfirmVal.str ""⟩) ∨
    (a.dryRun = false ∧ m = ⟨InvalidVal.str "No invalid order message found.",
        "Order preview loaded correctly.", confirmStep pg⟩) := by
  unfold quantityPhase at hm
  repeat' split at hm
  all_goals first
    | exact Or.inr (warningPhase_ok pg a _ m hm)
    | exact Or.inl ⟨_, by assumption, (Except.ok.inj hm).symm⟩
    | simp_all

theorem place_order_ok (pg : OrderPage) (a : OrderArgs)
    (m : OrderMessages) (hm : (place_order pg a).1 = Except.ok m) :
    m = ⟨InvalidVal.str "Quote did not load correctly.", "", ConfirmVal.str ""⟩ ∨
    (∃ msg, priceStep pg a = StepOut.ret msg ∧
        m = ⟨InvalidVal.str msg, "", ConfirmVal.str ""⟩) ∨
    (∃ h items, m = ⟨InvalidVal.panel h items, "", ConfirmVal.str ""⟩) ∨
    (a.dryRun = true ∧ m = ⟨InvalidVal.str "No invalid order message found.",
        "Order preview loaded correctly.", ConfirmVal.str ""⟩) ∨
    (a.dryRun = false ∧ m = ⟨InvalidVal.str "No invalid order message found.",
        "Order preview loaded correctly.", confirmStep pg⟩) := by
  unfold place_order at hm
  repeat' split at hm
  all_goals first
    | exact Or.inr (quantityPhase_ok pg a _ m hm)
    | simp_all

theorem submitPhase_err (pg : OrderPage) (a : OrderArgs) (tr : List Action)
    (e : PyError) (he : (submitPhase pg a tr).1 = Except.error e) :
    e = PyError.exn "No place order button found cannot continue." := by
  unfold submitPhase at he
  repeat' split at he
  all_goals simp_all

theorem warningPhase_err (pg : OrderPage) (a : OrderArgs) (tr : List Action)
    (e : PyError) (he : (warningPhase pg a tr).1 = Except.error e) :
    e = PyError.indexError ∨
    e = PyError.exn "No place order button found cannot continue." := by
  unfold warningPhase at he
  split at he
  · simp_all
  · simp_all
  · exact Or.inr (submitPhase_err pg a _ e he)

theorem quantityPhase_err (pg : OrderPage) (a : OrderArgs) (tr : List Action)
    (e : PyError) (he : (quantityPhase pg a tr).1 = Except.error e) :
    e = PyError.playwrightTimeout ∨ e = PyError.indexError ∨
    e = PyError.exn "No place order button found cannot continue." := by
  unfold quantityPhase at he
  repeat' split at he
  all_goals first
    | exact Or.inr (warningPhase_err pg a _ e he)
    | simp_all

theorem pollGo_err (f : Nat → Option String) :
    ∀ n i e, pollGo f i n = Except.error e → e = PyError.playwrightTimeout := by
  intro n
  induction n with
  | zero => intro i e h; simp [pollGo] at h
  | succ m ih =>
    intro i e h
    unfold pollGo at h
    repeat' split at h
    all_goals first
      | exact ih (i + 1) e h
      | simp_all

theorem place_order_err (pg : OrderPage) (a : OrderArgs)
    (e : PyError) (he : (place_order pg a).1 = Except.error e) :
    e = PyError.playwrightTimeout ∨ e = PyError.indexError ∨
    e = PyError.exn "No place order button found cannot continue." := by
  unfold place_order at he
  repeat' split at he
  all_goals first
    | exact quantityPhase_err pg a _ e he
    | (simp only [] at he; injection he with he; subst he;
       exact Or.inl (pollGo_err pg.quotePoll 12 0 _ (by assumption)))
    | simp_all

theorem sideStep_sub (pg : OrderPage) (a : OrderArgs) (t : List Action)
    (h : sideStep pg a = some t) : t ⊆ [Action.clickBuy, Action.clickSell] := by
  unfold sideStep at h
  repeat' split at h
  all_goals first
    | (injection h with h; subst h; decide)
    | simp_all

theorem priceStep_sub (pg : OrderPage) (a : OrderArgs) (t : List Action)
    (h : priceStep pg a = StepOut.cont t) :
    t ⊆ [Action.clickMarket, Action.clickLimit, Action.clickStop,
         Action.clickStopLimit, Action.fillLimitPrice, Action.fillStopPrice] := by
  unfold priceStep at h
  repeat' split at h
  all_goals first
    | (injection h with h; subst h; decide)
    | simp_all

theorem sellSteps_sub (pg : OrderPage) (a : OrderArgs) :
    sellSteps pg a ⊆ [Action.clickSellOk, Action.clickCostBasisCheckbox] := by
  unfold sellSteps
  repeat' split
  all_goals decide

theorem durationStep_sub (pg : OrderPage) (a : OrderArgs) :
    durationStep pg a ⊆ [Action.clickDay, Action.clickGtc,
      Action.clickSellOk, Action.clickCostBasisCheckbox] := by
  have hs : sellSteps pg a ⊆ [Action.clickDay, Action.clickGtc,
      Action.clickSellOk, Action.clickCostBasisCheckbox] :=
    (sellSteps_sub pg a).trans (by decide)
  unfold durationStep
  repeat' split
  all_goals simp_all [List.cons_subset]

theorem continueStep_sub (pg : OrderPage) : continueStep pg ⊆ [Action.clickContinue] := by
  unfold continueStep
  split
  all_goals decide

theorem previewStep_sub (pg : OrderPage) : previewStep pg ⊆ [Action.clickPreview] := by
  unfold previewStep
  split
  all_goals decide

theorem afterHoursStep_sub (pg : OrderPage) (a : OrderArgs) :
    afterHoursStep pg a ⊆ [Action.clickAfterHoursContinue] := by
  unfold afterHoursStep
  repeat' split
  all_goals decide

theorem priceStep_ret_of (pg : OrderPage) (a : OrderArgs)
    (hpt : a.priceType = PriceType.LIMIT ∨ a.priceType = PriceType.STOP ∨
           a.priceType = PriceType.STOP_LIMIT)
    (hd1 : a.duration ≠ Duration.DAY) (hd2 : a.duration ≠ Duration.GTC) :
    priceStep pg a = StepOut.ret (durationMsg a.priceType) := by
  have hdur : durationOk a.duration = false := by
    cases hda : a.duration <;> simp_all [durationOk, durationValue]
  rcases hpt with h | h | h <;> simp [priceStep, h, hdur, durationMsg]

theorem place_order_ret (pg : OrderPage) (a : OrderArgs)
    (h1 : pg.quoteBoxAppears = true) (q : String)
    (h2 : pollQuote pg.quotePoll = Except.ok q) (h3 : ¬(q = "$—"))
    (trS : List Action) (h4 : sideStep pg a = some trS)
    (h5 : pg.quantityBoxAppears = true) (msg : String)
    (h6 : priceStep pg a = StepOut.ret msg) :
    place_order pg a =
      (Except.ok ⟨InvalidVal.str msg, "", ConfirmVal.str ""⟩,
       (if pg.accountBoxAppears then [Action.selectAccount] else []) ++
         [Action.clickQuoteBox, Action.fillSymbol, Action.pressTab] ++
         (if pg.modalAppears then [Action.dismissModal] else []) ++ trS ++
         [Action.fillQuantity]) := by
  simp only [place_order, quantityPhase, h1, h2, h3, h4, h5, h6]
  simp [h3, List.append_assoc]

theorem submitPhase_dry_nsub (pg : OrderPage) (a : OrderArgs) (tr : List Action)
    (hd : a.dryRun = true) (h : Action.clickSubmit ∉ tr) :
    Action.clickSubmit ∉ (submitPhase pg a tr).2 := by
  unfold submitPhase
  repeat' split
  all_goals simp_all

theorem warningPhase_dry_nsub (pg : OrderPage) (a : OrderArgs) (tr : List Action)
    (hd : a.dryRun = true) (h : Action.clickSubmit ∉ tr) :
    Action.clickSubmit ∉ (warningPhase pg a tr).2 := by
  unfold warningPhase
  split
  · exact h
  · exact h
  · refine submitPhase_dry_nsub pg a _ hd ?_
    intro hmem
    rcases List.mem_append.1 hmem with hmem | hmem
    · rcases List.mem_append.1 hmem with hmem | hmem
      · exact h hmem
      · have := previewStep_sub pg hmem; simp_all
    · have := afterHoursStep_sub pg a hmem; simp_all

theorem quantityPhase_dry_nsub (pg : OrderPage) (a : OrderArgs) (tr : List Action)
    (hd : a.dryRun = true) (h : Action.clickSubmit ∉ tr) :
    Action.clickSubmit ∉ (quantityPhase pg a tr).2 := by
  unfold quantityPhase
  split
  · split
    · simp_all
    · refine warningPhase_dry_nsub pg a _ hd ?_
      intro hmem
      rcases List.mem_append.1 hmem with hmem | hmem
      · rcases List.mem_append.1 hmem with hmem | hmem
        · rcases List.mem_append.1 hmem with hmem | hmem
          · rcases List.mem_append.1 hmem with hmem | hmem
            · exact h hmem
            · simp_all
          · have := priceStep_sub pg a _ (by assumption) hmem; simp_all
        · have := durationStep_sub pg a hmem; simp_all
      · have := continueStep_sub pg hmem; simp_all
  · exact h

theorem place_order_dry_nsub (pg : OrderPage) (a : OrderArgs) (hd : a.dryRun = true) :
    Action.clickSubmit ∉ (place_order pg a).2 := by
  unfold place_order
  repeat' split
  all_goals first
    | (refine quantityPhase_dry_nsub pg a _ hd ?_
       intro hmem
       rcases List.mem_append.1 hmem with hmem | hmem
       · rcases List.mem_append.1 hmem with hmem | hmem
         · simp_all
         · simp_all
       · have := sideStep_sub pg a _ (by assumption) hmem; simp_all)
    | simp_all

theorem findLoginGo_mem (probes : Nat → LoginProbe) :
    ∀ fuel i m, findLoginGo probes i fuel m = 0 ∨ findLoginGo probes i fuel m = 1 ∨
      findLoginGo probes i fuel m = 2 ∨ findLoginGo probes i fuel m = 3 ∨
      findLoginGo probes i fuel m = 5 := by
  intro fuel
  induction fuel with
  | zero => intro i m; simp [findLoginGo]
  | succ n ih =>
    intro i m
    unfold findLoginGo
    split_ifs <;> first
      | simp
      | exact ih (i + 1) _

/-- C10: find_login_state only ever returns 0, 1, 2, 3 or 5; the
app-confirmation state assigns its mode without returning, so 4 is never
the result of the classifier. -/
theorem C10_find_login_state_range (probes : Nat → LoginProbe) :
    find_login_state probes = 0 ∨ find_login_state probes = 1 ∨
    find_login_state probes = 2 ∨ find_login_state probes = 3 ∨
    find_login_state probes = 5 :=
  findLoginGo_mem probes 120 0 0

/-- C9: when the classifier exhausts its 120 iterations (state 0), login
closes the session, persisting the browser state, and raises the wrapped
fatal error carrying the original message; it never returns a normal
outcome. -/
theorem C9_login_classifier_exhausted (env : LoginEnv) (cfg : SessionCfg)
    (lastFour : String) (hg : env.gotoError = none)
    (hs : find_login_state env.probes = 0) :
    login env cfg lastFour =
      (Except.error "Error in first step of login into Vanguard: Failed to find login state",
       SAction.goLoginPage :: close_browser cfg) ∧
    SAction.saveStorageState ∈ SAction.goLoginPage :: close_browser cfg := by
  constructor
  · simp [login, hg, loginBody, hs]
  · cases hdbg : cfg.debug <;> simp [close_browser, hdbg]

/-- Witness for C9 at a concrete environment whose probes never match. -/
theorem C9_witness :
    login loginEnvStuck cfgPlain "1234" =
      (Except.error "Error in first step of login into Vanguard: Failed to find login state",
       SAction.goLoginPage :: close_browser cfgPlain) ∧
    SAction.saveStorageState ∈ SAction.goLoginPage :: close_browser cfgPlain :=
  C9_login_classifier_exhausted loginEnvStuck cfgPlain "1234" rfl (by decide)

/-- C2: when the Get Quote field is present but every one of the 12 quote
polls still reads the placeholder price, place_order returns immediately
with ORDER INVALID = "Quote did not load correctly.", empty preview and
confirmation, and no later step (modal dismissal, side selection, quantity
entry, price-type selection, preview, submit) is executed. -/
theorem C2_quote_placeholder (pg : OrderPage) (a : OrderArgs)
    (h1 : pg.quoteBoxAppears = true)
    (h : ∀ j, j < 12 → pg.quotePoll j = some "$—") :
    place_order pg a =
      (Except.ok ⟨InvalidVal.str "Quote did not load correctly.", "", ConfirmVal.str ""⟩,
       (if pg.accountBoxAppears then [Action.selectAccount] else []) ++
         [Action.clickQuoteBox, Action.fillSymbol, Action.pressTab]) ∧
    Action.dismissModal ∉ (place_order pg a).2 ∧
    Action.clickBuy ∉ (place_order pg a).2 ∧
    Action.clickSell ∉ (place_order pg a).2 ∧
    Action.fillQuantity ∉ (place_order pg a).2 ∧
    Action.clickMarket ∉ (place_order pg a).2 ∧
    Action.clickLimit ∉ (place_order pg a).2 ∧
    Action.clickStop ∉ (place_order pg a).2 ∧
    Action.clickStopLimit ∉ (place_order pg a).2 ∧
    Action.clickPreview ∉ (place_order pg a).2 ∧
    Action.clickSubmit ∉ (place_order pg a).2 := by
  have hq := pollQuote_placeholder pg.quotePoll h
  have heq : place_order pg a =
      (Except.ok ⟨InvalidVal.str "Quote did not load correctly.", "", ConfirmVal.str ""⟩,
       (if pg.accountBoxAppears then [Action.selectAccount] else []) ++
         [Action.clickQuoteBox, Action.fillSymbol, Action.pressTab]) := by
    simp [place_order, h1, hq]
  refine ⟨heq, ?_⟩
  rw [heq]
  cases hacc : pg.accountBoxAppears <;> simp

/-- Witness for C2: a concrete healthy page whose quote polls always return
the placeholder. -/
theorem C2_witness :
    place_order pgStuckQuote argsDry =
      (Except.ok ⟨InvalidVal.str "Quote did not load correctly.", "", ConfirmVal.str ""⟩,
       (if pgStuckQuote.accountBoxAppears then [Action.selectAccount] else []) ++
         [Action.clickQuoteBox, Action.fillSymbol, Action.pressTab]) ∧
    Action.dismissModal ∉ (place_order pgStuckQuote argsDry).2 ∧
    Action.clickBuy ∉ (place_order pgStuckQuote argsDry).2 ∧
    Action.clickSell ∉ (place_order pgStuckQuote argsDry).2 ∧
    Action.fillQuantity ∉ (place_order pgStuckQuote argsDry).2 ∧
    Action.clickMarket ∉ (place_order pgStuckQuote argsDry).2 ∧
    Action.clickLimit ∉ (place_order pgStuckQuote argsDry).2 ∧
    Action.clickStop ∉ (place_order pgStuckQuote argsDry).2 ∧
    Action.clickStopLimit ∉ (place_order pgStuckQuote argsDry).2 ∧
    Action.clickPreview ∉ (place_order pgStuckQuote argsDry).2 ∧
    Action.clickSubmit ∉ (place_order pgStuckQuote argsDry).2 :=
  C2_quote_placeholder pgStuckQuote argsDry rfl (fun _ _ => rfl)

/-- C1 counterexample: with a LIMIT order whose duration is ON_THE_OPEN and
a page whose quote loads correctly but whose Buy label never appears, the
unwrapped side-selection wait raises a timeout, so place_order does not
return the ORDER INVALID result the claim promises. -/
theorem C1_counterexample :
    argsBadDuration.priceType = PriceType.LIMIT ∧
    argsBadDuration.duration = Duration.ON_OPEN ∧
    pollQuote pgNoBuyButton.quotePoll = Except.ok "$10.00" ∧
    (place_order pgNoBuyButton argsBadDuration).1 = Except.error PyError.playwrightTimeout :=
  ⟨rfl, rfl, by decide, by decide⟩

/-- C1 (amended): for a LIMIT, STOP or STOP_LIMIT order whose duration is
neither DAY nor GOOD_TILL_CANCELLED, provided the quote loads and the
side-selection and quantity waits find their controls, place_order returns
immediately with ORDER INVALID naming the violated constraint, empty
preview and confirmation, and no duration selection, preview, submit or
confirmation parsing is executed. -/
theorem C1_duration_validation (pg : OrderPage) (a : OrderArgs)
    (hpt : a.priceType = PriceType.LIMIT ∨ a.priceType = PriceType.STOP ∨
           a.priceType = PriceType.STOP_LIMIT)
    (hd1 : a.duration ≠ Duration.DAY) (hd2 : a.duration ≠ Duration.GTC)
    (h1 : pg.quoteBoxAppears = true) (q : String)
    (h2 : pollQuote pg.quotePoll = Except.ok q) (h3 : q ≠ "$—")
    (trS : List Action) (h4 : sideStep pg a = some trS)
    (h5 : pg.quantityBoxAppears = true) :
    (place_order pg a).1 =
      Except.ok ⟨InvalidVal.str (durationMsg a.priceType), "", ConfirmVal.str ""⟩ ∧
    Action.clickDay ∉ (place_order pg a).2 ∧
    Action.clickGtc ∉ (place_order pg a).2 ∧
    Action.clickPreview ∉ (place_order pg a).2 ∧
    Action.clickSubmit ∉ (place_order pg a).2 ∧
    Action.readConfirmation ∉ (place_order pg a).2 := by
  have h6 := priceStep_ret_of pg a hpt hd1 hd2
  have heq := place_order_ret pg a h1 q h2 h3 trS h4 h5 _ h6
  have htr : (place_order pg a).2 ⊆
      [Action.selectAccount, Action.clickQuoteBox, Action.fillSymbol, Action.pressTab,
       Action.dismissModal, Action.clickBuy, Action.clickSell, Action.fillQuantity] := by
    rw [heq]
    intro x hx
    simp only [List.append_assoc, List.mem_append] at hx
    rcases hx with hx | hx | hx | hx | hx
    · revert hx; split <;> intro hx <;> simp_all
    · simp only [List.mem_cons, List.not_mem_nil, or_false] at hx
      rcases hx with rfl | rfl | rfl <;> simp
    · revert hx; split <;> intro hx <;> simp_all
    · have hbs := sideStep_sub pg a trS h4 hx
      simp only [List.mem_cons, List.not_mem_nil, or_false] at hbs
      rcases hbs with rfl | rfl <;> simp
    · simp_all
  refine ⟨by rw [heq], ?_, ?_, ?_, ?_, ?_⟩ <;>
    exact fun hm => absurd (htr hm) (by decide)

/-- Witness for C1: a healthy page and a LIMIT order with duration
ON_THE_OPEN. -/
theorem C1_witness :
    (place_order pgHealthy argsBadDuration).1 =
      Except.ok ⟨InvalidVal.str (durationMsg argsBadDuration.priceType), "", ConfirmVal.str ""⟩ ∧
    Action.clickDay ∉ (place_order pgHealthy argsBadDuration).2 ∧
    Action.clickGtc ∉ (place_order pgHealthy argsBadDuration).2 ∧
    Action.clickPreview ∉ (place_order pgHealthy argsBadDuration).2 ∧
    Action.clickSubmit ∉ (place_order pgHealthy argsBadDuration).2 ∧
    Action.readConfirmation ∉ (place_order pgHealthy argsBadDuration).2 :=
  C1_duration_validation pgHealthy argsBadDuration (Or.inl rfl) (by decide) (by decide)
    rfl "$10.00" (by decide) (by decide) [Action.clickBuy] (by decide) rfl

/-- C3 counterexample: a completed live submission populates both the ORDER
PREVIEW and the ORDER CONFIRMATION fields, so exactly one of the two is not
populated on this success. -/
theorem C3_counterexample :
    (place_order pgHealthy argsLive).1 =
      Except.ok ⟨InvalidVal.str "No invalid order message found.",
        "Order preview loaded correctly.",
        ConfirmVal.conf "12345" "January 2, 2024" "10:30 am"⟩ ∧
    ("Order preview loaded correctly." = "") = False ∧
    (ConfirmVal.conf "12345" "January 2, 2024" "10:30 am" = ConfirmVal.str "") = False :=
  ⟨by decide, by simp, by simp⟩

/-- C3 (amended): every result place_order returns satisfies: on a
validation failure (ORDER INVALID differing from the success marker) the
invalid reason is populated and preview and confirmation are both empty;
on success, the preview is populated, and the confirmation is empty exactly
when the call was a dry run (after a live submission both preview and
confirmation are populated). -/
theorem C3_result_shape (pg : OrderPage) (a : OrderArgs) (m : OrderMessages)
    (hm : (place_order pg a).1 = Except.ok m) :
    (m.invalid ≠ InvalidVal.str "No invalid order message found." →
      m.preview = "" ∧ m.confirmation = ConfirmVal.str "" ∧
      m.invalid ≠ InvalidVal.str "") ∧
    (m.invalid = InvalidVal.str "No invalid order message found." →
      m.preview = "Order preview loaded correctly." ∧
      (a.dryRun = true → m.confirmation = ConfirmVal.str "") ∧
      (a.dryRun = false → m.confirmation ≠ ConfirmVal.str "")) := by
  rcases place_order_ok pg a m hm with h | ⟨msg, hret, h⟩ | ⟨hh, items, h⟩ | ⟨hd, h⟩ | ⟨hd, h⟩
  · subst h
    exact ⟨fun _ => ⟨rfl, rfl, by decide⟩, fun hc => absurd hc (by decide)⟩
  · subst h
    rcases priceStep_ret_msg pg a msg hret with rfl | rfl
    · exact ⟨fun _ => ⟨rfl, rfl, by decide⟩, fun hc => absurd hc (by decide)⟩
    · exact ⟨fun _ => ⟨rfl, rfl, by decide⟩, fun hc => absurd hc (by decide)⟩
  · subst h
    exact ⟨fun _ => ⟨rfl, rfl, by simp⟩, fun hc => absurd hc (by simp)⟩
  · subst h
    refine ⟨fun hc => absurd rfl hc, fun _ => ⟨rfl, fun _ => rfl, fun hlive => ?_⟩⟩
    simp_all
  · subst h
    refine ⟨fun hc => absurd rfl hc, fun _ => ⟨rfl, fun hdry => ?_, fun _ => confirmStep_ne_empty pg⟩⟩
    simp_all

/-- Witness for C3 at a concrete dry-run success. -/
theorem C3_witness :
    (⟨InvalidVal.str "No invalid order message found.",
      "Order preview loaded correctly.", ConfirmVal.str ""⟩ : OrderMessages).preview =
      "Order preview loaded correctly." ∧
    (⟨InvalidVal.str "No invalid order message found.",
      "Order preview loaded correctly.", ConfirmVal.str ""⟩ : OrderMessages).confirmation =
      ConfirmVal.str "" :=
  have h := C3_result_shape pgHealthy argsDry
    ⟨InvalidVal.str "No invalid order message found.",
     "Order preview loaded correctly.", ConfirmVal.str ""⟩ (by decide)
  ⟨(h.2 rfl).1, (h.2 rfl).2.1 rfl⟩

/-- C4 counterexample: a page whose Get Quote box never appears makes
place_order raise a timeout error even though the submit step was never
reached, so not every non-submit wait degrades to a recorded message. -/
theorem C4_counterexample :
    pgNoQuoteBox.submitVisible = true ∧
    (place_order pgNoQuoteBox argsDry).1 = Except.error PyError.playwrightTimeout :=
  ⟨rfl, by decide⟩

/-- C4 (amended): the only exceptions place_order can raise are the timeout
of one of the unwrapped waits (quote box, quote poll, side button, quantity
box), the IndexError of the warning de-duplication loop, and the deliberate
exception of the submit step; and whenever execution reaches the submit step
with dry_run false and the submit control never becomes visible, place_order
raises that exception instead of returning a result. -/
theorem C4_error_policy :
    (∀ pg a e, (place_order pg a).1 = Except.error e →
      e = PyError.playwrightTimeout ∨ e = PyError.indexError ∨
      e = PyError.exn "No place order button found cannot continue.") ∧
    (∀ pg a, pg.quoteBoxAppears = true →
      ∀ q, pollQuote pg.quotePoll = Except.ok q → q ≠ "$—" →
      ∀ trS, sideStep pg a = some trS → pg.quantityBoxAppears = true →
      ∀ trP, priceStep pg a = StepOut.cont trP → warningStep pg = WOut.cont →
      (a : OrderArgs).dryRun = false → pg.submitVisible = false →
      (place_order pg a).1 =
        Except.error (PyError.exn "No place order button found cannot continue.")) := by
  constructor
  · exact place_order_err
  · intro pg a h1 q h2 h3 trS h4 h5 trP h6 h7 hd hsub
    have hr := place_order_reach pg a h1 q h2 h3 trS h4 h5 trP h6 h7
    rw [hr]
    simp [submitPhase, hsub]

/-- Witness for C4: a live order on a healthy page whose submit control
never becomes visible. -/
theorem C4_witness :
    (place_order pgNoSubmit argsLive).1 =
      Except.error (PyError.exn "No place order button found cannot continue.") :=
  C4_error_policy.2 pgNoSubmit argsLive rfl "$10.00" (by decide) (by decide)
    [Action.clickBuy] (by decide) rfl [Action.clickLimit, Action.fillLimitPrice]
    (by decide) (by decide) rfl rfl

/-- C5: a dry-run call that reaches the preview step and finds the submit
control visible records ORDER PREVIEW = "Order preview loaded correctly."
and returns without ever clicking the submit control. -/
theorem C5_dry_run (pg : OrderPage) (a : OrderArgs)
    (hd : a.dryRun = true)
    (h1 : pg.quoteBoxAppears = true) (q : String)
    (h2 : pollQuote pg.quotePoll = Except.ok q) (h3 : q ≠ "$—")
    (trS : List Action) (h4 : sideStep pg a = some trS)
    (h5 : pg.quantityBoxAppears = true)
    (trP : List Action) (h6 : priceStep pg a = StepOut.cont trP)
    (h7 : warningStep pg = WOut.cont) (h8 : pg.submitVisible = true) :
    (place_order pg a).1 =
      Except.ok ⟨InvalidVal.str "No invalid order message found.",
        "Order preview loaded correctly.", ConfirmVal.str ""⟩ ∧
    Action.clickSubmit ∉ (place_order pg a).2 := by
  constructor
  · have hr := place_order_reach pg a h1 q h2 h3 trS h4 h5 trP h6 h7
    rw [hr]
    simp [submitPhase, h8, hd]
  · exact place_order_dry_nsub pg a hd

/-- Witness for C5 at the healthy page and the dry-run limit day order. -/
theorem C5_witness :
    (place_order pgHealthy argsDry).1 =
      Except.ok ⟨InvalidVal.str "No invalid order message found.",
        "Order preview loaded correctly.", ConfirmVal.str ""⟩ ∧
    Action.clickSubmit ∉ (place_order pgHealthy argsDry).2 :=
  C5_dry_run pgHealthy argsDry rfl rfl "$10.00" (by decide) (by decide)
    [Action.clickBuy] (by decide) rfl [Action.clickLimit, Action.fillLimitPrice]
    (by decide) (by decide) rfl

/-- C6: in holdings row parsing, the price cell "$1,234.56" yields the
decimal 1234.56 and the unparseable cell "n/a" yields 0.0; every price or
quantity cell whose text the float parse rejects degrades to 0.0 (the
ValueError is caught), and a successful parse is stored as read. -/
theorem C6_cell_parsing :
    ((parse_rows stub6).map Stock.price =
      [some (PyFloat.finite 123456 2), some (PyFloat.finite 0 0)]) ∧
    ((parse_rows stub6).map Stock.quantity =
      [some (PyFloat.finite 3 0), some (PyFloat.finite 0 0)]) ∧
    pyVal 123456 2 = 1234.56 ∧
    (∀ s : String, pyFloat (cleanPrice s) = none → parsePriceCell s = PyFloat.finite 0 0) ∧
    (∀ s v, pyFloat (cleanPrice s) = some v → parsePriceCell s = v) ∧
    (∀ s : String, pyFloat s.toList = none → parseQuantityCell s = PyFloat.finite 0 0) ∧
    (∀ s v, pyFloat s.toList = some v → parseQuantityCell s = v) := by
  refine ⟨by decide, by decide, by norm_num [pyVal], ?_, ?_, ?_, ?_⟩
  · intro s hv; simp [parsePriceCell, hv]
  · intro s v hv; simp [parsePriceCell, hv]
  · intro s hv
    simp only [String.toList] at hv
    simp [parseQuantityCell, hv]
  · intro s v hv
    simp only [String.toList] at hv
    simp [parseQuantityCell, hv]

/-- Witness for C6 at the two price cells of the claim. -/
theorem C6_witness :
    parsePriceCell "n/a" = PyFloat.finite 0 0 ∧
    parsePriceCell "$1,234.56" = PyFloat.finite 123456 2 :=
  ⟨C6_cell_parsing.2.2.2.1 "n/a" (by decide),
   C6_cell_parsing.2.2.2.2.1 "$1,234.56" (PyFloat.finite 123456 2) (by decide)⟩

/-- C7: the holding records are the position-wise zip of the six collected
columns padded with none: the record list has the length of the longest
column and record i holds each column entry at i when present; on the stub
with three symbols and two prices the third record has a null price. -/
theorem C7_zip_records :
    (∀ c : Cols, (zipStocks c).length = max6 c) ∧
    (∀ c : Cols, ∀ i, (zipStocks c).get? i =
      if i < max6 c then
        some ⟨c.symbols.get? i, c.descriptions.get? i, c.prices.get? i,
              c.dollarChanges.get? i, c.percentChanges.get? i, c.quantities.get? i⟩
      else none) ∧
    parse_rows stub7 =
      [⟨some "AAPL", some "Apple Inc", some (PyFloat.finite 10 0),
        some "+1", some "+1%", some (PyFloat.finite 2 0)⟩,
       ⟨some "MSFT", some "Microsoft", some (PyFloat.finite 20 0),
        some "-1", some "-1%", some (PyFloat.finite 3 0)⟩,
       ⟨some "VTI", some "Vanguard ETF", none, none, none, none⟩] ∧
    (parse_rows stub7).length = 3 := by
  refine ⟨?_, ?_, by decide, by decide⟩
  · intro c; simp [zipStocks]
  · intro c i
    by_cases hi : i < max6 c
    · simp [zipStocks, List.get?_map, List.get?_range, hi]
    · simp [zipStocks, List.get?_map, List.get?_range, hi]
      omega

/-- C8: the warning de-duplication loop crashes with an IndexError on a
consecutive duplicate followed by a further item (it indexes the collected
list at i - 1 although the collected list is shorter than i), so place_order
raises instead of returning the structured invalid reason; without such a
pattern the loop performs the intended consecutive de-duplication. -/
theorem C8_dedup_crash :
    collectItems ["Quantity is required.", "Quantity is required.", "Price is required."] = none ∧
    (place_order pgWarning argsDry).1 = Except.error PyError.indexError ∧
    collectItems ["Quantity is required.", "Price is required."] =
      some ["Quantity is required.", "Price is required."] ∧
    collectItems ["Quantity is required.", "Quantity is required."] =
      some ["Quantity is required."] :=
  ⟨by decide, by decide, by decide, by decide⟩

end Vanguard
